import Mathlib

/-!
# Verification of NeMo `text_generation_strategy.py`

A shallow embedding of the incremental-decoding batch preparation and
end-of-generation detection logic of
`nemo/collections/nlp/modules/common/text_generation_strategy.py`,
with theorems checking the module's specification.

Tensors are modelled as lists: a 2-D integer tensor is a `Grid`
(list of rows), a 1-D tensor is a `List`.  Machine integers are `Int`
(token ids never overflow in the source).  The tokenizer is an opaque
collaborator: a structure holding its conversion functions and an
identity tag (Python object identity, used as a cache key).
Tokenizer invocations are made observable by threading explicit logs
(`probed`, `warned`) and counters through the embedded functions, so
that claims about "no re-invocation" are statable.
-/

/-- 2-D integer tensor, as a list of rows. -/
abbrev Grid := List (List Int)

/-- `g[:, :n]` — keep the first `n` columns of every row. -/
def sliceCols (g : Grid) (n : Nat) : Grid := g.map (fun row => row.take n)

/-- `g[:, j].view(batch, -1)` — extract column `j` as a `[batch, 1]` grid
(each row becomes the singleton of its `j`-th entry; rows are assumed to be
long enough, as in the source where the tensor is rectangular). -/
def viewColumn (g : Grid) (j : Nat) : Grid := g.map (fun row => [row.getD j 0])

/-- second dimension of a (rectangular) grid: `g.shape[1]`. -/
def gridShape1 (g : Grid) : Nat := (g.headD []).length

/-- A forward-pass input entry: the Python batch list mixes 2-D token grids,
`None`, boolean / integer vectors, and opaque tensors (media, task ids,
neighbor tensors) that this module merely passes through. -/
inductive Tensor where
  | grid (g : Grid)
  | vecB (v : List Bool)
  | vecI (v : List Int)
  | null
  | passthrough (tag : Nat)
  deriving Repr, DecidableEq

/-- `shape[1]` of a batch entry when it is a grid (used in the returned
`tensor_shape = [tokens2use.shape[1], micro_batch_size, hidden_size]`). -/
def tensorShape1 : Tensor → Nat
  | Tensor.grid g => gridShape1 g
  | _ => 0

/-- the text representation of eos_id, it applies for all tokenizers
(`END_OF_SEQ = '<|endoftext|>'` in the source). -/
def END_OF_SEQ : String := "<|endoftext|>"

/-- The tokenizer collaborator: opaque conversion functions plus an
identity tag modelling Python object identity (`is` comparison). -/
structure Tokenizer where
  ident : Nat
  text_to_ids : String → List Int
  ids_to_text : List Int → String
  tokenize : String → List Int
  bos_id : Int
  eos_id : Int
  unk_id : Int

/-- The end-of-generation cache (`self._end_of_generation_cache`):
the identity of the tokenizer it was built for, the dict from end string
to its single-token encoding, and the set of end strings known to
require an actual string comparison.  The dict is an association list,
the set a duplicate-free-by-construction list. -/
structure EndOfGenerationCache where
  tokenizer_ident : Nat
  end_string_to_token : List (String × Int)
  end_strings_to_check : List String
  deriving Repr, DecidableEq

/-- insertion into a Python `set` modelled on lists: add only if absent. -/
def insertSet {α : Type} [BEq α] (l : List α) (x : α) : List α :=
  if l.contains x then l else l ++ [x]

/-- The freshly (re)built cache of `_get_end_of_generation_tokens_and_strings`:
records the active tokenizer, maps `END_OF_SEQ` to `eod_id`, knows no
string-comparison strings yet. -/
def freshCache (tok : Tokenizer) (eod_id : Int) : EndOfGenerationCache :=
  { tokenizer_ident := tok.ident
    end_string_to_token := [(END_OF_SEQ, eod_id)]
    end_strings_to_check := [] }

/-- an end string is resolved in the cache when it has a memoized
single-token encoding or is memoized as requiring a string comparison. -/
def resolvedInCache (c : EndOfGenerationCache) (s : String) : Prop :=
  (c.end_string_to_token.lookup s).isSome ∨ c.end_strings_to_check.contains s

instance (c : EndOfGenerationCache) (s : String) : Decidable (resolvedInCache c s) := by
  unfold resolvedInCache; infer_instance

/-- State threaded through the `for end_string in end_strings` loop of
`_get_end_of_generation_tokens_and_strings`: the `end_tokens` set under
construction, the `end_strings_to_check` output list, the (mutated) cache,
and two observation logs — `probed` records each end string for which the
token-discovery heuristic invoked `tokenizer.text_to_ids`, `warned` each
end string for which a performance warning was issued. -/
structure ResolveLoopState where
  end_tokens : List Int
  to_check : List String
  cache : EndOfGenerationCache
  probed : List String
  warned : List String
  deriving Repr

/-- One iteration of the loop body (source lines 220–248): cached token →
reuse it; cached string-comparison string → append to the output list;
otherwise run the discovery heuristic on `"<extra_id_1>"` and
`"<extra_id_1>" ++ end_string`, memoizing the outcome either way. -/
def resolveEndString (tok : Tokenizer) (st : ResolveLoopState) (end_string : String) :
    ResolveLoopState :=
  match st.cache.end_string_to_token.lookup end_string with
  | some t => { st with end_tokens := insertSet st.end_tokens t }
  | none =>
    if st.cache.end_strings_to_check.contains end_string then
      { st with to_check := st.to_check ++ [end_string] }
    else
      let ids_ref := tok.text_to_ids "<extra_id_1>"
      let ids_with_end_string := tok.text_to_ids ("<extra_id_1>" ++ end_string)
      if ids_with_end_string.length = ids_ref.length + 1 ∧
          ids_with_end_string.dropLast = ids_ref then
        { st with
            end_tokens := insertSet st.end_tokens (ids_with_end_string.getLastD 0)
            cache := { st.cache with
              end_string_to_token :=
                st.cache.end_string_to_token ++ [(end_string, ids_with_end_string.getLastD 0)] }
            probed := st.probed ++ [end_string] }
      else
        { st with
            cache := { st.cache with
              end_strings_to_check := insertSet st.cache.end_strings_to_check end_string }
            to_check := st.to_check ++ [end_string]
            probed := st.probed ++ [end_string]
            warned := st.warned ++ [end_string] }

/-- Result of `_get_end_of_generation_tokens_and_strings`: the pair the
source returns, plus the updated cache and the observation logs. -/
structure ResolveResult where
  end_tokens : List Int
  end_strings_to_check : List String
  cache : EndOfGenerationCache
  probed : List String
  warned : List String
  deriving Repr

/-- `TextGenerationStrategy._get_end_of_generation_tokens_and_strings`
(source lines 192–250): invalidate/rebuild the cache when absent or built
for a different tokenizer object, then resolve each end string in order;
`end_tokens` starts as `{eod_id}` (always included, even if `END_OF_SEQ`
is not within `end_strings`). -/
def getEndOfGenerationTokensAndStrings (tok : Tokenizer)
    (cache0 : Option EndOfGenerationCache) (eod_id : Int) (end_strings : List String) :
    ResolveResult :=
  let cache :=
    match cache0 with
    | none => freshCache tok eod_id
    | some c => if c.tokenizer_ident ≠ tok.ident then freshCache tok eod_id else c
  let final := end_strings.foldl (resolveEndString tok)
    { end_tokens := [eod_id], to_check := [], cache := cache, probed := [], warned := [] }
  { end_tokens := final.end_tokens
    end_strings_to_check := final.to_check
    cache := final.cache
    probed := final.probed
    warned := final.warned }

/-- Python's `str.endswith`: character-level suffix test (Lean's own
`String.endsWith` is byte-position based and equivalent; the character
list form keeps the definition executable by the kernel). -/
def pyEndsWith (text suffix : String) : Bool := suffix.data.isSuffixOf text.data

/-- Result of `end_of_generation_condition`: the boolean tensor the source
returns, the cache afterwards, the discovery-heuristic log, and the number
of `ids_to_text` (decode) invocations. -/
structure EogResult where
  is_end : List Bool
  cache : Option EndOfGenerationCache
  probed : List String
  decoded : Nat
  warned : List String
  deriving Repr

/-- `TextGenerationStrategy.end_of_generation_condition` (source lines
148–182).  Fast path: no end strings, or exactly `[END_OF_SEQ]` →
elementwise `prev == eod_id`, no tokenizer call, cache untouched.
General path: resolve the end strings, test `prev ∈ end_tokens`
elementwise, and — when some strings require a string comparison — decode
each row of `tokens` and OR in the suffix test. -/
def end_of_generation_condition (tok : Tokenizer)
    (cache0 : Option EndOfGenerationCache) (tokens : Grid) (prev : List Int)
    (eod_id : Int) (end_strings : List String) : EogResult :=
  if (end_strings.length = 1 ∧ end_strings.headD "" = END_OF_SEQ) ∨ end_strings = [] then
    { is_end := prev.map (fun p => p == eod_id)
      cache := cache0, probed := [], decoded := 0, warned := [] }
  else
    let r := getEndOfGenerationTokensAndStrings tok cache0 eod_id end_strings
    let is_end := prev.map (fun p => r.end_tokens.contains p)
    let is_end :=
      if r.end_strings_to_check.isEmpty then is_end
      else (tokens.zip is_end).map (fun te =>
        te.2 || r.end_strings_to_check.any (fun s => pyEndsWith (tok.ids_to_text te.1) s))
    { is_end := is_end
      cache := some r.cache
      probed := r.probed
      decoded := if r.end_strings_to_check.isEmpty then 0 else tokens.length
      warned := r.warned }

/-- The model configuration bag the strategies read (`model.cfg`):
`encoder_seq_length`, `hidden_size`, and the optional
`position_embedding_type` entry (`cfg.get` with default
`"learned_absolute"` when unset). -/
structure ModelCfg where
  encoder_seq_length : Int
  hidden_size : Nat
  position_embedding_type : Option String

/-- Per-session state of `GPTModelTextGenerationStrategy`: the position
ids and attention mask computed by `init_batch`, plus the model config. -/
structure GPTStrategyState where
  position_ids : Grid
  attention_mask : Grid
  cfg : ModelCfg

/-- `GPTModelTextGenerationStrategy.clip_max_len` (source lines 258–265). -/
def GPTModelTextGenerationStrategy.clip_max_len (cfg : ModelCfg) (maxlen : Int) : Int :=
  if cfg.position_embedding_type.getD "learned_absolute" = "learned_absolute" then
    if maxlen > cfg.encoder_seq_length + 1 then cfg.encoder_seq_length + 1 else maxlen
  else maxlen

/-- `GPTModelTextGenerationStrategy.prepare_batch_at_step` (source lines
282–324): prefill (step 0) takes the whole `[:, :context_length]` prefix
and requests cache allocation; later steps take the single column
`context_length - 1` viewed as `[micro_batch_size, 1]` and do not. -/
def GPTModelTextGenerationStrategy.prepare_batch_at_step (st : GPTStrategyState)
    (tokens : Grid) (maxlen : Int) (micro_batch_size : Nat) (step : Nat)
    (context_length : Nat) (compute_attention_mask : Bool) :
    List Tensor × List Nat :=
  let sel :=
    if step = 0 then
      (true, sliceCols tokens context_length, sliceCols st.position_ids context_length)
    else
      (false, viewColumn tokens (context_length - 1),
        viewColumn st.position_ids (context_length - 1))
  let set_inference_key_value_memory := sel.1
  let tokens2use := sel.2.1
  let positions2use := sel.2.2
  let attention_mask_repeat : Tensor :=
    if compute_attention_mask then
      Tensor.grid (List.replicate micro_batch_size st.attention_mask).flatten
    else Tensor.null
  let setkey_value_array := List.replicate micro_batch_size set_inference_key_value_memory
  let len_array := List.replicate micro_batch_size maxlen
  ([Tensor.grid tokens2use, attention_mask_repeat, Tensor.grid positions2use,
      Tensor.vecB setkey_value_array, Tensor.vecI len_array],
    [gridShape1 tokens2use, micro_batch_size, st.cfg.hidden_size])

/-- Per-session state of `NevaModelTextGenerationStrategy` (same fields as
the plain GPT strategy; the media tensor arrives as a call argument). -/
structure NevaStrategyState where
  position_ids : Grid
  attention_mask : Grid
  cfg : ModelCfg

/-- `NevaModelTextGenerationStrategy.clip_max_len` (source lines 410–414):
always clips, with no position-embedding-type escape hatch. -/
def NevaModelTextGenerationStrategy.clip_max_len (cfg : ModelCfg) (maxlen : Int) : Int :=
  if maxlen > cfg.encoder_seq_length + 1 then cfg.encoder_seq_length + 1 else maxlen

/-- `NevaModelTextGenerationStrategy.prepare_batch_at_step` (source lines
461–503): identical step logic to the GPT strategy, with the `media`
tensor inserted into the batch before the cache flag. -/
def NevaModelTextGenerationStrategy.prepare_batch_at_step (st : NevaStrategyState)
    (tokens : Grid) (maxlen : Int) (micro_batch_size : Nat) (step : Nat)
    (context_length : Nat) (compute_attention_mask : Bool) (media : Tensor) :
    List Tensor × List Nat :=
  let sel :=
    if step = 0 then
      (true, sliceCols tokens context_length, sliceCols st.position_ids context_length)
    else
      (false, viewColumn tokens (context_length - 1),
        viewColumn st.position_ids (context_length - 1))
  let set_inference_key_value_memory := sel.1
  let tokens2use := sel.2.1
  let positions2use := sel.2.2
  let attention_mask_repeat : Tensor :=
    if compute_attention_mask then
      Tensor.grid (List.replicate micro_batch_size st.attention_mask).flatten
    else Tensor.null
  let setkey_value_array := List.replicate micro_batch_size set_inference_key_value_memory
  let len_array := List.replicate micro_batch_size maxlen
  ([Tensor.grid tokens2use, attention_mask_repeat, Tensor.grid positions2use, media,
      Tensor.vecB setkey_value_array, Tensor.vecI len_array],
    [gridShape1 tokens2use, micro_batch_size, st.cfg.hidden_size])

/-- Per-session state of `PromptLearningModelTextGenerationStrategy`: the
task-id tensor captured at construction, position ids / attention mask
from `init_batch`, and the frozen model's config (`model.frozen_model.cfg`,
used for both `clip_max_len` and the hidden size). -/
structure PromptLearningStrategyState where
  task_ids : Tensor
  position_ids : Grid
  attention_mask : Grid
  frozen_cfg : ModelCfg

/-- `PromptLearningModelTextGenerationStrategy.clip_max_len` (source lines
527–531): always clips, against the frozen model's `encoder_seq_length`. -/
def PromptLearningModelTextGenerationStrategy.clip_max_len (frozen_cfg : ModelCfg)
    (maxlen : Int) : Int :=
  if maxlen > frozen_cfg.encoder_seq_length + 1 then frozen_cfg.encoder_seq_length + 1
  else maxlen

/-- `PromptLearningModelTextGenerationStrategy.prepare_batch_at_step`
(source lines 533–571): identical step logic, with `self.task_ids`
inserted into the batch before the cache flag, and the frozen model's
hidden size in the shape descriptor. -/
def PromptLearningModelTextGenerationStrategy.prepare_batch_at_step
    (st : PromptLearningStrategyState) (tokens : Grid) (maxlen : Int)
    (micro_batch_size : Nat) (step : Nat) (context_length : Nat)
    (compute_attention_mask : Bool) : List Tensor × List Nat :=
  let sel :=
    if step = 0 then
      (true, sliceCols tokens context_length, sliceCols st.position_ids context_length)
    else
      (false, viewColumn tokens (context_length - 1),
        viewColumn st.position_ids (context_length - 1))
  let set_inference_key_value_memory := sel.1
  let tokens2use := sel.2.1
  let positions2use := sel.2.2
  let attention_mask_repeat : Tensor :=
    if compute_attention_mask then
      Tensor.grid (List.replicate micro_batch_size st.attention_mask).flatten
    else Tensor.null
  let setkey_value_array := List.replicate micro_batch_size set_inference_key_value_memory
  let len_array := List.replicate micro_batch_size maxlen
  ([Tensor.grid tokens2use, attention_mask_repeat, Tensor.grid positions2use, st.task_ids,
      Tensor.vecB setkey_value_array, Tensor.vecI len_array],
    [gridShape1 tokens2use, micro_batch_size, st.frozen_cfg.hidden_size])

/-- The fields of the prompt-learning model that `post_process` reads:
the pseudo-token threshold (may be unset) and the tokenizer's unknown id. -/
structure PromptLearningModelRef where
  pseudo_token_ids_start : Option Int
  unk_id : Int

/-- `TextGenerationStrategy.post_process` (source lines 137–146): the
abstract hook is `pass` — it mutates nothing, so the GPT, Neva and Retro
strategies, which inherit it, leave both tensors unchanged. -/
def TextGenerationStrategy.post_process (tokens : Grid) (new_tokens : List Int)
    (_context_length : Nat) : Grid × List Int :=
  (tokens, new_tokens)

/-- `PromptLearningModelTextGenerationStrategy.post_process` (source lines
573–584): when `pseudo_token_ids_start` is set, every entry of
`new_tokens` that is `>=` the threshold and every such entry of
`tokens[:, :context_length]` is overwritten with `tokenizer.unk_id`;
columns at or beyond `context_length` are untouched. -/
def PromptLearningModelTextGenerationStrategy.post_process
    (model : PromptLearningModelRef) (tokens : Grid) (new_tokens : List Int)
    (context_length : Nat) : Grid × List Int :=
  match model.pseudo_token_ids_start with
  | none => (tokens, new_tokens)
  | some pseudo_token_ids_start =>
    let new_tokens := new_tokens.map (fun t =>
      if pseudo_token_ids_start ≤ t then model.unk_id else t)
    let tokens := tokens.map (fun row =>
      (row.take context_length).map (fun t =>
        if pseudo_token_ids_start ≤ t then model.unk_id else t) ++ row.drop context_length)
    (tokens, new_tokens)

/-- Per-session state of `RetroModelTextGenerationStrategy`: position ids
and attention mask for the prompt, plus the neighbor attention mask
(always set to `None` by `init_batch`) and the neighbor position ids.
The neighbor token grid itself arrives as the `neighbors_tokens` extra
keyword argument of `prepare_batch_at_step`. -/
structure RetroStrategyState where
  position_ids : Grid
  attention_mask : Grid
  neighbor_attention_mask : Tensor
  neighbor_position_ids : Tensor
  cfg : ModelCfg

/-- `RetroModelTextGenerationStrategy.clip_max_len` (source lines
596–603): same body as the GPT strategy's. -/
def RetroModelTextGenerationStrategy.clip_max_len (cfg : ModelCfg) (maxlen : Int) : Int :=
  if cfg.position_embedding_type.getD "learned_absolute" = "learned_absolute" then
    if maxlen > cfg.encoder_seq_length + 1 then cfg.encoder_seq_length + 1 else maxlen
  else maxlen

/-- `RetroModelTextGenerationStrategy.prepare_batch_at_step` (source lines
706–749): identical step logic, with the neighbor token grid, neighbor
attention mask and neighbor position ids inserted before the cache flag. -/
def RetroModelTextGenerationStrategy.prepare_batch_at_step (st : RetroStrategyState)
    (tokens : Grid) (maxlen : Int) (micro_batch_size : Nat) (step : Nat)
    (context_length : Nat) (compute_attention_mask : Bool)
    (neighbors_tokens : Tensor) : List Tensor × List Nat :=
  let sel :=
    if step = 0 then
      (true, sliceCols tokens context_length, sliceCols st.position_ids context_length)
    else
      (false, viewColumn tokens (context_length - 1),
        viewColumn st.position_ids (context_length - 1))
  let set_inference_key_value_memory := sel.1
  let tokens2use := sel.2.1
  let positions2use := sel.2.2
  let attention_mask_repeat : Tensor :=
    if compute_attention_mask then
      Tensor.grid (List.replicate micro_batch_size st.attention_mask).flatten
    else Tensor.null
  let setkey_value_array := List.replicate micro_batch_size set_inference_key_value_memory
  let len_array := List.replicate micro_batch_size maxlen
  ([Tensor.grid tokens2use, attention_mask_repeat, Tensor.grid positions2use,
      neighbors_tokens, st.neighbor_attention_mask, st.neighbor_position_ids,
      Tensor.vecB setkey_value_array, Tensor.vecI len_array],
    [gridShape1 tokens2use, micro_batch_size, st.cfg.hidden_size])

/-- The retrieval arguments dict read by `tokenize_neighbors_batch`. -/
structure RetroArgs where
  retro_gpt_retrieved_length : Nat
  retro_num_neighbors : Nat
  ft_neighbours : Nat
  reuse_top : Bool

/-- `RetroModelTextGenerationStrategy.tokenize_neighbors_batch` (source
lines 625–659): tokenize the neighbors, keep the configured window of
them, truncate/pad each row to `retro_gpt_retrieved_length` with
`eos_id`.  The source's "check if have enough neighbors" is
`assert ValueError(...)`: asserting a freshly constructed (truthy)
exception object never fails, so the insufficient-neighbors case falls
through and the function returns normally. -/
def RetroModelTextGenerationStrategy.tokenize_neighbors_batch (tok : Tokenizer)
    (neighbors : List String) (retro_args : RetroArgs) : Grid :=
  let r := retro_args.retro_gpt_retrieved_length
  let retro_num_neighbors := retro_args.retro_num_neighbors
  let ft_neighbours := retro_args.ft_neighbours
  let neighbors_tokens := neighbors.map (fun neighbor => tok.tokenize neighbor)
  let valid_neighbours_tokens :=
    if retro_args.reuse_top then neighbors_tokens.take retro_num_neighbors
    else (neighbors_tokens.drop ft_neighbours).take retro_num_neighbors
  let padded_valid_neighbours_tokens := valid_neighbours_tokens.map (fun neighbour_tokens =>
    if neighbour_tokens.length ≥ r then neighbour_tokens.take r
    else neighbour_tokens ++ List.replicate (r - neighbour_tokens.length) tok.eos_id)
  padded_valid_neighbours_tokens

/-- The model families `model_inference_strategy_dispatcher` inspects by
`isinstance`, in the source's order; `unsupported` stands for any other
model instance (carrying its printable name). -/
inductive NemoModel where
  | megatronNeva
  | megatronGPTPromptLearning
  | megatronGPT
  | megatronRetrieval (megatron_lm_compatible : Bool)
  | unsupported (name : String)
  deriving Repr, DecidableEq

/-- The strategy implementation the dispatcher constructs and returns
(the three retrieval variants come from the legacy retro module and
receive the model's `megatron_lm_compatible` flag). -/
inductive SelectedStrategy where
  | nevaStrategy
  | promptLearningStrategy
  | gptStrategy
  | retroStrategy (megatron_lm_compatible : Bool)
  | retroQAStrategy (megatron_lm_compatible : Bool)
  | retroFileQAStrategy (megatron_lm_compatible : Bool)
  deriving Repr, DecidableEq

/-- `model_inference_strategy_dispatcher` (source lines 874–907): pick the
one strategy bound to the model family; for the retrieval family require
the `strategy` argument to name one of the three legacy retro strategies;
raise `ValueError` (modelled as `Except.error`) otherwise. -/
def model_inference_strategy_dispatcher (model : NemoModel) (strategy : String) :
    Except String SelectedStrategy :=
  match model with
  | NemoModel.megatronNeva => Except.ok SelectedStrategy.nevaStrategy
  | NemoModel.megatronGPTPromptLearning => Except.ok SelectedStrategy.promptLearningStrategy
  | NemoModel.megatronGPT => Except.ok SelectedStrategy.gptStrategy
  | NemoModel.megatronRetrieval megatron_lm_compatible =>
    if strategy = "RetroModelTextGenerationStrategy" then
      Except.ok (SelectedStrategy.retroStrategy megatron_lm_compatible)
    else if strategy = "RetroQAModelTextGenerationStrategy" then
      Except.ok (SelectedStrategy.retroQAStrategy megatron_lm_compatible)
    else if strategy = "RetroFileQAModelTextGenerationStrategy" then
      Except.ok (SelectedStrategy.retroFileQAStrategy megatron_lm_compatible)
    else Except.error (strategy ++ " is not supported for inference")
  | NemoModel.unsupported name => Except.error (name ++ " is not supported for inference")

/-- A concrete tokenizer used to evaluate the embedded functions on
closed inputs: `"Done"` has a discoverable single token (42), `"STOP"`
does not, `"doc"`/`"long"` tokenize to rows of length 3 and 5. -/
def sampleTokenizer : Tokenizer :=
  { ident := 0
    text_to_ids := fun s =>
      if s = "<extra_id_1>" then [7]
      else if s = "<extra_id_1>Done" then [7, 42]
      else if s = "<extra_id_1>STOP" then [7, 9, 9]
      else [1]
    ids_to_text := fun l => if l = [3] then "xSTOP" else "hello"
    tokenize := fun s =>
      if s = "doc" then [1, 2, 3] else if s = "long" then [1, 2, 3, 4, 5] else [1]
    bos_id := 2
    eos_id := 0
    unk_id := 99 }

theorem lookup_append_of_lookup_none {l : List (String × Int)} {s : String}
    (h : l.lookup s = none) (t : Int) : (l ++ [(s, t)]).lookup s = some t := by
  induction l with
  | nil => simp [List.lookup]
  | cons a tl ih =>
    obtain ⟨k, v⟩ := a
    rw [List.cons_append]
    simp only [List.lookup] at h ⊢
    cases hsk : s == k with
    | true => simp [hsk] at h
    | false => simp only [hsk] at h ⊢; exact ih h

theorem lookup_isSome_append {l m : List (String × Int)} {s : String}
    (h : (l.lookup s).isSome) : ((l ++ m).lookup s).isSome := by
  induction l with
  | nil => simp [List.lookup] at h
  | cons a tl ih =>
    obtain ⟨k, v⟩ := a
    rw [List.cons_append]
    simp only [List.lookup] at h ⊢
    cases hsk : s == k with
    | true => simp only [hsk]; rfl
    | false => simp only [hsk] at h ⊢; exact ih h

theorem contains_insertSet_of_contains {l : List String} {s : String}
    (h : l.contains s = true) (t : String) : (insertSet l t).contains s = true := by
  unfold insertSet
  split
  · exact h
  · simp at h ⊢; exact Or.inl h

theorem mem_insertSet_of_mem {l : List Int} {x : Int} (h : x ∈ l) (y : Int) :
    x ∈ insertSet l y := by
  unfold insertSet
  split
  · exact h
  · exact List.mem_append_left _ h

theorem resolvedInCache_resolveEndString (tok : Tokenizer) (st : ResolveLoopState)
    (t s : String) (h : resolvedInCache st.cache s) :
    resolvedInCache (resolveEndString tok st t).cache s := by
  unfold resolveEndString
  rcases hl : st.cache.end_string_to_token.lookup t with _ | v
  · simp only
    split
    · exact h
    · split
      · rcases h with h | h
        · exact Or.inl (lookup_isSome_append h)
        · exact Or.inr h
      · rcases h with h | h
        · exact Or.inl h
        · exact Or.inr (contains_insertSet_of_contains h t)
  · exact h

theorem end_tokens_mem_resolveEndString (tok : Tokenizer) (st : ResolveLoopState)
    (t : String) {x : Int} (h : x ∈ st.end_tokens) :
    x ∈ (resolveEndString tok st t).end_tokens := by
  unfold resolveEndString
  rcases hl : st.cache.end_string_to_token.lookup t with _ | v
  · simp only
    split
    · exact h
    · split
      · exact mem_insertSet_of_mem h _
      · exact h
  · exact mem_insertSet_of_mem h _

theorem cache_ident_resolveEndString (tok : Tokenizer) (st : ResolveLoopState)
    (t : String) :
    (resolveEndString tok st t).cache.tokenizer_ident = st.cache.tokenizer_ident := by
  unfold resolveEndString
  rcases hl : st.cache.end_string_to_token.lookup t with _ | v
  · simp only
    split
    · rfl
    · split <;> rfl
  · rfl

theorem probed_resolveEndString_resolved (tok : Tokenizer) (st : ResolveLoopState)
    (t s : String) (hres : resolvedInCache st.cache s) (hnp : s ∉ st.probed) :
    s ∉ (resolveEndString tok st t).probed := by
  unfold resolveEndString
  rcases hl : st.cache.end_string_to_token.lookup t with _ | v
  · simp only
    split
    · exact hnp
    · rename_i hcont
      have hts : t ≠ s := by
        intro he
        subst he
        rcases hres with h | h
        · rw [hl] at h; simp at h
        · exact hcont h
      split
      all_goals
        simp only [List.mem_append, List.mem_singleton]
        rintro (h | h)
        · exact hnp h
        · exact hts h.symm
  · exact hnp

theorem end_tokens_mem_foldl (tok : Tokenizer) (end_strings : List String)
    (st : ResolveLoopState) {x : Int} (h : x ∈ st.end_tokens) :
    x ∈ (end_strings.foldl (resolveEndString tok) st).end_tokens := by
  induction end_strings generalizing st with
  | nil => exact h
  | cons e tl ih => exact ih _ (end_tokens_mem_resolveEndString tok st e h)

theorem resolved_and_unprobed_foldl (tok : Tokenizer) (end_strings : List String)
    (st : ResolveLoopState) (s : String) (hres : resolvedInCache st.cache s)
    (hnp : s ∉ st.probed) :
    resolvedInCache (end_strings.foldl (resolveEndString tok) st).cache s ∧
      s ∉ (end_strings.foldl (resolveEndString tok) st).probed := by
  induction end_strings generalizing st with
  | nil => exact ⟨hres, hnp⟩
  | cons e tl ih =>
    exact ih _ (resolvedInCache_resolveEndString tok st e s hres)
      (probed_resolveEndString_resolved tok st e s hres hnp)

/-- C10: `clip_max_len` never exceeds `maxlen`; the GPT and Retro
strategies clip to `min maxlen (encoder_seq_length + 1)` exactly when the
configured `position_embedding_type` (default `"learned_absolute"`) is
`"learned_absolute"` and return `maxlen` unchanged otherwise, while the
Neva and prompt-learning strategies always clip (the latter against the
frozen model's config). -/
theorem clip_max_len_spec (cfg frozen_cfg : ModelCfg) (maxlen : Int) :
    GPTModelTextGenerationStrategy.clip_max_len cfg maxlen ≤ maxlen ∧
    NevaModelTextGenerationStrategy.clip_max_len cfg maxlen ≤ maxlen ∧
    PromptLearningModelTextGenerationStrategy.clip_max_len frozen_cfg maxlen ≤ maxlen ∧
    RetroModelTextGenerationStrategy.clip_max_len cfg maxlen ≤ maxlen ∧
    (cfg.position_embedding_type.getD "learned_absolute" = "learned_absolute" →
      GPTModelTextGenerationStrategy.clip_max_len cfg maxlen
          = min maxlen (cfg.encoder_seq_length + 1) ∧
      RetroModelTextGenerationStrategy.clip_max_len cfg maxlen
          = min maxlen (cfg.encoder_seq_length + 1)) ∧
    (cfg.position_embedding_type.getD "learned_absolute" ≠ "learned_absolute" →
      GPTModelTextGenerationStrategy.clip_max_len cfg maxlen = maxlen ∧
      RetroModelTextGenerationStrategy.clip_max_len cfg maxlen = maxlen) ∧
    NevaModelTextGenerationStrategy.clip_max_len cfg maxlen
        = min maxlen (cfg.encoder_seq_length + 1) ∧
    PromptLearningModelTextGenerationStrategy.clip_max_len frozen_cfg maxlen
        = min maxlen (frozen_cfg.encoder_seq_length + 1) := by
  unfold GPTModelTextGenerationStrategy.clip_max_len
    NevaModelTextGenerationStrategy.clip_max_len
    PromptLearningModelTextGenerationStrategy.clip_max_len
    RetroModelTextGenerationStrategy.clip_max_len
  refine ⟨?_, ?_, ?_, ?_, ?_, ?_, ?_, ?_⟩ <;> intros <;> split_ifs <;>
    first | omega | simp_all

/-- Witness for `clip_max_len_spec` at concrete configs (unset and
non-default position-embedding types, `encoder_seq_length = 5`). -/
theorem clip_max_len_spec_witness :
    (GPTModelTextGenerationStrategy.clip_max_len ⟨5, 7, none⟩ 100 = min 100 6 ∧
      RetroModelTextGenerationStrategy.clip_max_len ⟨5, 7, none⟩ 100 = min 100 6) ∧
    (GPTModelTextGenerationStrategy.clip_max_len ⟨5, 7, some "rope"⟩ 100 = 100 ∧
      RetroModelTextGenerationStrategy.clip_max_len ⟨5, 7, some "rope"⟩ 100 = 100) ∧
    NevaModelTextGenerationStrategy.clip_max_len ⟨5, 7, none⟩ 100 = min 100 6 ∧
    PromptLearningModelTextGenerationStrategy.clip_max_len ⟨5, 7, none⟩ 100 = min 100 6 :=
  ⟨(clip_max_len_spec ⟨5, 7, none⟩ ⟨5, 7, none⟩ 100).2.2.2.2.1 (by decide),
    (clip_max_len_spec ⟨5, 7, some "rope"⟩ ⟨5, 7, none⟩ 100).2.2.2.2.2.1 (by decide),
    (clip_max_len_spec ⟨5, 7, none⟩ ⟨5, 7, none⟩ 100).2.2.2.2.2.2.1,
    (clip_max_len_spec ⟨5, 7, none⟩ ⟨5, 7, none⟩ 100).2.2.2.2.2.2.2⟩

/-- C7: the dispatcher returns the one strategy bound to each supported
model family, errors on any model outside the four families, and, for the
retrieval family, errors on any strategy name outside the fixed
three-element set. -/
theorem model_inference_strategy_dispatcher_spec :
    (∀ name strategy,
      model_inference_strategy_dispatcher (NemoModel.unsupported name) strategy
        = Except.error (name ++ " is not supported for inference")) ∧
    (∀ strategy, model_inference_strategy_dispatcher NemoModel.megatronNeva strategy
        = Except.ok SelectedStrategy.nevaStrategy) ∧
    (∀ strategy,
      model_inference_strategy_dispatcher NemoModel.megatronGPTPromptLearning strategy
        = Except.ok SelectedStrategy.promptLearningStrategy) ∧
    (∀ strategy, model_inference_strategy_dispatcher NemoModel.megatronGPT strategy
        = Except.ok SelectedStrategy.gptStrategy) ∧
    (∀ compat, model_inference_strategy_dispatcher (NemoModel.megatronRetrieval compat)
        "RetroModelTextGenerationStrategy"
        = Except.ok (SelectedStrategy.retroStrategy compat)) ∧
    (∀ compat, model_inference_strategy_dispatcher (NemoModel.megatronRetrieval compat)
        "RetroQAModelTextGenerationStrategy"
        = Except.ok (SelectedStrategy.retroQAStrategy compat)) ∧
    (∀ compat, model_inference_strategy_dispatcher (NemoModel.megatronRetrieval compat)
        "RetroFileQAModelTextGenerationStrategy"
        = Except.ok (SelectedStrategy.retroFileQAStrategy compat)) ∧
    (∀ compat strategy,
      strategy ≠ "RetroModelTextGenerationStrategy" →
      strategy ≠ "RetroQAModelTextGenerationStrategy" →
      strategy ≠ "RetroFileQAModelTextGenerationStrategy" →
      model_inference_strategy_dispatcher (NemoModel.megatronRetrieval compat) strategy
        = Except.error (strategy ++ " is not supported for inference")) := by
  refine ⟨fun _ _ => rfl, fun _ => rfl, fun _ => rfl, fun _ => rfl,
    fun compat => ?_, fun compat => ?_, fun compat => ?_,
    fun compat strategy h1 h2 h3 => ?_⟩
  · rfl
  · rfl
  · rfl
  · show (if strategy = "RetroModelTextGenerationStrategy" then
        Except.ok (SelectedStrategy.retroStrategy compat)
      else if strategy = "RetroQAModelTextGenerationStrategy" then
        Except.ok (SelectedStrategy.retroQAStrategy compat)
      else if strategy = "RetroFileQAModelTextGenerationStrategy" then
        Except.ok (SelectedStrategy.retroFileQAStrategy compat)
      else Except.error (strategy ++ " is not supported for inference"))
        = Except.error (strategy ++ " is not supported for inference")
    rw [if_neg h1, if_neg h2, if_neg h3]

/-- Witness for `model_inference_strategy_dispatcher_spec`: the unknown
sub-variant name `"FancyStrategy"` is rejected for a retrieval model. -/
theorem model_inference_strategy_dispatcher_spec_witness :
    model_inference_strategy_dispatcher (NemoModel.megatronRetrieval true) "FancyStrategy"
      = Except.error ("FancyStrategy" ++ " is not supported for inference") :=
  model_inference_strategy_dispatcher_spec.2.2.2.2.2.2.2 true "FancyStrategy"
    (by decide) (by decide) (by decide)

/-- C2: with no end strings, or exactly the default `["<|endoftext|>"]`,
`end_of_generation_condition` is elementwise `prev == eod_id` — for every
`tokens` tensor — with no tokenizer text conversion (`probed = []`,
`decoded = 0`) and the cache untouched. -/
theorem end_of_generation_condition_fast_path (tok : Tokenizer)
    (cache0 : Option EndOfGenerationCache) (tokens : Grid) (prev : List Int)
    (eod_id : Int) (end_strings : List String)
    (h : end_strings = [] ∨ end_strings = [END_OF_SEQ]) :
    end_of_generation_condition tok cache0 tokens prev eod_id end_strings
      = { is_end := prev.map (fun p => p == eod_id), cache := cache0,
          probed := [], decoded := 0, warned := [] } := by
  rcases h with h | h <;> subst h <;> unfold end_of_generation_condition
  · rw [if_pos (Or.inr rfl)]
  · rw [if_pos (Or.inl ⟨rfl, rfl⟩)]

/-- Witness for `end_of_generation_condition_fast_path` on a concrete
batch of two sequences with `eod_id = 0`. -/
theorem end_of_generation_condition_fast_path_witness :
    end_of_generation_condition sampleTokenizer none [[1, 2], [3, 4]] [0, 5] 0 []
      = { is_end := [true, false], cache := none, probed := [], decoded := 0,
          warned := [] } := by
  rw [end_of_generation_condition_fast_path sampleTokenizer none [[1, 2], [3, 4]]
    [0, 5] 0 [] (Or.inl rfl)]
  rfl

/-- C6 (code bug): `tokenize_neighbors_batch` does not fail when fewer
neighbor rows than `retro_num_neighbors` remain — the source's
`assert ValueError(...)` asserts a truthy exception object, so with one
neighbor and `retro_num_neighbors = 2` it returns a 1-row grid normally;
rows are still truncated/padded to `retro_gpt_retrieved_length = 4` with
`eos_id = 0`. -/
theorem tokenize_neighbors_batch_insufficient_returns :
    RetroModelTextGenerationStrategy.tokenize_neighbors_batch sampleTokenizer ["doc"]
        ⟨4, 2, 0, true⟩
      = [[1, 2, 3, 0]] ∧
    (RetroModelTextGenerationStrategy.tokenize_neighbors_batch sampleTokenizer ["doc"]
        ⟨4, 2, 0, true⟩).length < 2 ∧
    RetroModelTextGenerationStrategy.tokenize_neighbors_batch sampleTokenizer
        ["long", "doc"] ⟨4, 2, 0, true⟩
      = [[1, 2, 3, 4], [1, 2, 3, 0]] := by
  refine ⟨?_, ?_, ?_⟩ <;> decide

/-- C1: for every strategy variant, step 0 selects the full
`tokens[:, :context_length]` and `position_ids[:, :context_length]`
prefix and signals cache (re)allocation
(`set_inference_key_value_memory = True`, replicated per micro batch),
while every step > 0 selects exactly the single column at index
`context_length - 1`, reshaped to `[micro_batch_size, 1]` (one singleton
row per sequence when `micro_batch_size` is the batch size), and signals
no reallocation. -/
theorem prepare_batch_at_step_prefill_decode (stG : GPTStrategyState)
    (stN : NevaStrategyState) (stP : PromptLearningStrategyState)
    (stR : RetroStrategyState) (tokens : Grid) (maxlen : Int)
    (micro_batch_size : Nat) (step : Nat) (context_length : Nat)
    (compute_attention_mask : Bool) (media neighbors_tokens : Tensor) :
    (step = 0 →
      (GPTModelTextGenerationStrategy.prepare_batch_at_step stG tokens maxlen
          micro_batch_size step context_length compute_attention_mask).1.getD 0 Tensor.null
        = Tensor.grid (tokens.map (fun row => row.take context_length)) ∧
      (GPTModelTextGenerationStrategy.prepare_batch_at_step stG tokens maxlen
          micro_batch_size step context_length compute_attention_mask).1.getD 2 Tensor.null
        = Tensor.grid (stG.position_ids.map (fun row => row.take context_length)) ∧
      (GPTModelTextGenerationStrategy.prepare_batch_at_step stG tokens maxlen
          micro_batch_size step context_length compute_attention_mask).1.getD 3 Tensor.null
        = Tensor.vecB (List.replicate micro_batch_size true) ∧
      (NevaModelTextGenerationStrategy.prepare_batch_at_step stN tokens maxlen
          micro_batch_size step context_length compute_attention_mask media).1.getD 0 Tensor.null
        = Tensor.grid (tokens.map (fun row => row.take context_length)) ∧
      (NevaModelTextGenerationStrategy.prepare_batch_at_step stN tokens maxlen
          micro_batch_size step context_length compute_attention_mask media).1.getD 2 Tensor.null
        = Tensor.grid (stN.position_ids.map (fun row => row.take context_length)) ∧
      (NevaModelTextGenerationStrategy.prepare_batch_at_step stN tokens maxlen
          micro_batch_size step context_length compute_attention_mask media).1.getD 4 Tensor.null
        = Tensor.vecB (List.replicate micro_batch_size true) ∧
      (PromptLearningModelTextGenerationStrategy.prepare_batch_at_step stP tokens maxlen
          micro_batch_size step context_length compute_attention_mask).1.getD 0 Tensor.null
        = Tensor.grid (tokens.map (fun row => row.take context_length)) ∧
      (PromptLearningModelTextGenerationStrategy.prepare_batch_at_step stP tokens maxlen
          micro_batch_size step context_length compute_attention_mask).1.getD 2 Tensor.null
        = Tensor.grid (stP.position_ids.map (fun row => row.take context_length)) ∧
      (PromptLearningModelTextGenerationStrategy.prepare_batch_at_step stP tokens maxlen
          micro_batch_size step context_length compute_attention_mask).1.getD 4 Tensor.null
        = Tensor.vecB (List.replicate micro_batch_size true) ∧
      (RetroModelTextGenerationStrategy.prepare_batch_at_step stR tokens maxlen
          micro_batch_size step context_length compute_attention_mask
          neighbors_tokens).1.getD 0 Tensor.null
        = Tensor.grid (tokens.map (fun row => row.take context_length)) ∧
      (RetroModelTextGenerationStrategy.prepare_batch_at_step stR tokens maxlen
          micro_batch_size step context_length compute_attention_mask
          neighbors_tokens).1.getD 2 Tensor.null
        = Tensor.grid (stR.position_ids.map (fun row => row.take context_length)) ∧
      (RetroModelTextGenerationStrategy.prepare_batch_at_step stR tokens maxlen
          micro_batch_size step context_length compute_attention_mask
          neighbors_tokens).1.getD 6 Tensor.null
        = Tensor.vecB (List.replicate micro_batch_size true)) ∧
    (step ≠ 0 →
      (GPTModelTextGenerationStrategy.prepare_batch_at_step stG tokens maxlen
          micro_batch_size step context_length compute_attention_mask).1.getD 0 Tensor.null
        = Tensor.grid (tokens.map (fun row => [row.getD (context_length - 1) 0])) ∧
      (GPTModelTextGenerationStrategy.prepare_batch_at_step stG tokens maxlen
          micro_batch_size step context_length compute_attention_mask).1.getD 2 Tensor.null
        = Tensor.grid (stG.position_ids.map (fun row => [row.getD (context_length - 1) 0])) ∧
      (GPTModelTextGenerationStrategy.prepare_batch_at_step stG tokens maxlen
          micro_batch_size step context_length compute_attention_mask).1.getD 3 Tensor.null
        = Tensor.vecB (List.replicate micro_batch_size false) ∧
      (NevaModelTextGenerationStrategy.prepare_batch_at_step stN tokens maxlen
          micro_batch_size step context_length compute_attention_mask media).1.getD 0 Tensor.null
        = Tensor.grid (tokens.map (fun row => [row.getD (context_length - 1) 0])) ∧
      (NevaModelTextGenerationStrategy.prepare_batch_at_step stN tokens maxlen
          micro_batch_size step context_length compute_attention_mask media).1.getD 2 Tensor.null
        = Tensor.grid (stN.position_ids.map (fun row => [row.getD (context_length - 1) 0])) ∧
      (NevaModelTextGenerationStrategy.prepare_batch_at_step stN tokens maxlen
          micro_batch_size step context_length compute_attention_mask media).1.getD 4 Tensor.null
        = Tensor.vecB (List.replicate micro_batch_size false) ∧
      (PromptLearningModelTextGenerationStrategy.prepare_batch_at_step stP tokens maxlen
          micro_batch_size step context_length compute_attention_mask).1.getD 0 Tensor.null
        = Tensor.grid (tokens.map (fun row => [row.getD (context_length - 1) 0])) ∧
      (PromptLearningModelTextGenerationStrategy.prepare_batch_at_step stP tokens maxlen
          micro_batch_size step context_length compute_attention_mask).1.getD 2 Tensor.null
        = Tensor.grid (stP.position_ids.map (fun row => [row.getD (context_length - 1) 0])) ∧
      (PromptLearningModelTextGenerationStrategy.prepare_batch_at_step stP tokens maxlen
          micro_batch_size step context_length compute_attention_mask).1.getD 4 Tensor.null
        = Tensor.vecB (List.replicate micro_batch_size false) ∧
      (RetroModelTextGenerationStrategy.prepare_batch_at_step stR tokens maxlen
          micro_batch_size step context_length compute_attention_mask
          neighbors_tokens).1.getD 0 Tensor.null
        = Tensor.grid (tokens.map (fun row => [row.getD (context_length - 1) 0])) ∧
      (RetroModelTextGenerationStrategy.prepare_batch_at_step stR tokens maxlen
          micro_batch_size step context_length compute_attention_mask
          neighbors_tokens).1.getD 2 Tensor.null
        = Tensor.grid (stR.position_ids.map (fun row => [row.getD (context_length - 1) 0])) ∧
      (RetroModelTextGenerationStrategy.prepare_batch_at_step stR tokens maxlen
          micro_batch_size step context_length compute_attention_mask
          neighbors_tokens).1.getD 6 Tensor.null
        = Tensor.vecB (List.replicate micro_batch_size false)) ∧
    (micro_batch_size = tokens.length →
      (tokens.map (fun row => [row.getD (context_length - 1) 0])).length = micro_batch_size ∧
      ∀ row ∈ tokens.map (fun row => [row.getD (context_length - 1) 0]), row.length = 1) := by
  refine ⟨?_, ?_, ?_⟩
  · intro h
    subst h
    exact ⟨rfl, rfl, rfl, rfl, rfl, rfl, rfl, rfl, rfl, rfl, rfl, rfl⟩
  · intro h
    simp only [GPTModelTextGenerationStrategy.prepare_batch_at_step,
      NevaModelTextGenerationStrategy.prepare_batch_at_step,
      PromptLearningModelTextGenerationStrategy.prepare_batch_at_step,
      RetroModelTextGenerationStrategy.prepare_batch_at_step,
      if_neg h, viewColumn]
    exact ⟨rfl, rfl, rfl, rfl, rfl, rfl, rfl, rfl, rfl, rfl, rfl, rfl⟩
  · intro h
    subst h
    refine ⟨List.length_map _ _, ?_⟩
    intro row hrow
    obtain ⟨r, _, hr⟩ := List.mem_map.mp hrow
    rw [← hr]
    rfl

/-- Witness for `prepare_batch_at_step_prefill_decode` on a one-sequence
batch with `context_length = 2`, at steps 0 and 1. -/
theorem prepare_batch_at_step_prefill_decode_witness :
    (GPTModelTextGenerationStrategy.prepare_batch_at_step ⟨[[0, 1, 2]], [[1]], ⟨5, 7, none⟩⟩
        [[20, 21, 22]] 9 1 0 2 true).1.getD 0 Tensor.null = Tensor.grid [[20, 21]] ∧
    (GPTModelTextGenerationStrategy.prepare_batch_at_step ⟨[[0, 1, 2]], [[1]], ⟨5, 7, none⟩⟩
        [[20, 21, 22]] 9 1 0 2 true).1.getD 3 Tensor.null = Tensor.vecB [true] ∧
    (GPTModelTextGenerationStrategy.prepare_batch_at_step ⟨[[0, 1, 2]], [[1]], ⟨5, 7, none⟩⟩
        [[20, 21, 22]] 9 1 1 2 true).1.getD 0 Tensor.null = Tensor.grid [[21]] ∧
    (GPTModelTextGenerationStrategy.prepare_batch_at_step ⟨[[0, 1, 2]], [[1]], ⟨5, 7, none⟩⟩
        [[20, 21, 22]] 9 1 1 2 true).1.getD 3 Tensor.null = Tensor.vecB [false] ∧
    (([[20, 21, 22]] : Grid).map (fun row => [row.getD (2 - 1) 0])).length = 1 := by
  have h0 := prepare_batch_at_step_prefill_decode ⟨[[0, 1, 2]], [[1]], ⟨5, 7, none⟩⟩
    ⟨[[0, 1, 2]], [[1]], ⟨5, 7, none⟩⟩ ⟨Tensor.passthrough 2, [[0, 1, 2]], [[1]], ⟨5, 7, none⟩⟩
    ⟨[[0, 1, 2]], [[1]], Tensor.null, Tensor.passthrough 3, ⟨5, 7, none⟩⟩
    [[20, 21, 22]] 9 1 0 2 true (Tensor.passthrough 0) (Tensor.passthrough 1)
  have h1 := prepare_batch_at_step_prefill_decode ⟨[[0, 1, 2]], [[1]], ⟨5, 7, none⟩⟩
    ⟨[[0, 1, 2]], [[1]], ⟨5, 7, none⟩⟩ ⟨Tensor.passthrough 2, [[0, 1, 2]], [[1]], ⟨5, 7, none⟩⟩
    ⟨[[0, 1, 2]], [[1]], Tensor.null, Tensor.passthrough 3, ⟨5, 7, none⟩⟩
    [[20, 21, 22]] 9 1 1 2 true (Tensor.passthrough 0) (Tensor.passthrough 1)
  exact ⟨(h0.1 rfl).1, (h0.1 rfl).2.2.1, (h1.2.1 (by decide)).1,
    (h1.2.1 (by decide)).2.2.1, (h1.2.2 rfl).1⟩

/-- C8: relative to the plain-decoder (GPT) batch — which has exactly the
five entries tokens, attention mask, positions, cache flag, lengths — each
variant appends its extra inputs in order, immediately after positions:
Neva the media tensor, prompt-learning the task-id tensor, Retro the
neighbor token grid, the neighbor attention mask and the neighbor position
ids; and every variant's shape descriptor is
`[tokens2use.shape[1], micro_batch_size, hidden_size]`. -/
theorem prepare_batch_at_step_variant_extras (position_ids attention_mask : Grid)
    (cfg : ModelCfg) (task_ids media neighbors_tokens nb_mask nb_pos : Tensor)
    (tokens : Grid) (maxlen : Int) (micro_batch_size step context_length : Nat)
    (compute_attention_mask : Bool) :
    (GPTModelTextGenerationStrategy.prepare_batch_at_step
        ⟨position_ids, attention_mask, cfg⟩ tokens maxlen micro_batch_size step
        context_length compute_attention_mask).1.length = 5 ∧
    (NevaModelTextGenerationStrategy.prepare_batch_at_step
        ⟨position_ids, attention_mask, cfg⟩ tokens maxlen micro_batch_size step
        context_length compute_attention_mask media).1
      = (GPTModelTextGenerationStrategy.prepare_batch_at_step
          ⟨position_ids, attention_mask, cfg⟩ tokens maxlen micro_batch_size step
          context_length compute_attention_mask).1.take 3 ++ [media] ++
        (GPTModelTextGenerationStrategy.prepare_batch_at_step
          ⟨position_ids, attention_mask, cfg⟩ tokens maxlen micro_batch_size step
          context_length compute_attention_mask).1.drop 3 ∧
    (PromptLearningModelTextGenerationStrategy.prepare_batch_at_step
        ⟨task_ids, position_ids, attention_mask, cfg⟩ tokens maxlen micro_batch_size step
        context_length compute_attention_mask).1
      = (GPTModelTextGenerationStrategy.prepare_batch_at_step
          ⟨position_ids, attention_mask, cfg⟩ tokens maxlen micro_batch_size step
          context_length compute_attention_mask).1.take 3 ++ [task_ids] ++
        (GPTModelTextGenerationStrategy.prepare_batch_at_step
          ⟨position_ids, attention_mask, cfg⟩ tokens maxlen micro_batch_size step
          context_length compute_attention_mask).1.drop 3 ∧
    (RetroModelTextGenerationStrategy.prepare_batch_at_step
        ⟨position_ids, attention_mask, nb_mask, nb_pos, cfg⟩ tokens maxlen
        micro_batch_size step context_length compute_attention_mask neighbors_tokens).1
      = (GPTModelTextGenerationStrategy.prepare_batch_at_step
          ⟨position_ids, attention_mask, cfg⟩ tokens maxlen micro_batch_size step
          context_length compute_attention_mask).1.take 3 ++
        [neighbors_tokens, nb_mask, nb_pos] ++
        (GPTModelTextGenerationStrategy.prepare_batch_at_step
          ⟨position_ids, attention_mask, cfg⟩ tokens maxlen micro_batch_size step
          context_length compute_attention_mask).1.drop 3 ∧
    (GPTModelTextGenerationStrategy.prepare_batch_at_step
        ⟨position_ids, attention_mask, cfg⟩ tokens maxlen micro_batch_size step
        context_length compute_attention_mask).2
      = [tensorShape1 ((GPTModelTextGenerationStrategy.prepare_batch_at_step
            ⟨position_ids, attention_mask, cfg⟩ tokens maxlen micro_batch_size step
            context_length compute_attention_mask).1.getD 0 Tensor.null),
          micro_batch_size, cfg.hidden_size] ∧
    (NevaModelTextGenerationStrategy.prepare_batch_at_step
        ⟨position_ids, attention_mask, cfg⟩ tokens maxlen micro_batch_size step
        context_length compute_attention_mask media).2
      = [tensorShape1 ((NevaModelTextGenerationStrategy.prepare_batch_at_step
            ⟨position_ids, attention_mask, cfg⟩ tokens maxlen micro_batch_size step
            context_length compute_attention_mask media).1.getD 0 Tensor.null),
          micro_batch_size, cfg.hidden_size] ∧
    (PromptLearningModelTextGenerationStrategy.prepare_batch_at_step
        ⟨task_ids, position_ids, attention_mask, cfg⟩ tokens maxlen micro_batch_size step
        context_length compute_attention_mask).2
      = [tensorShape1 ((PromptLearningModelTextGenerationStrategy.prepare_batch_at_step
            ⟨task_ids, position_ids, attention_mask, cfg⟩ tokens maxlen micro_batch_size
            step context_length compute_attention_mask).1.getD 0 Tensor.null),
          micro_batch_size, cfg.hidden_size] ∧
    (RetroModelTextGenerationStrategy.prepare_batch_at_step
        ⟨position_ids, attention_mask, nb_mask, nb_pos, cfg⟩ tokens maxlen
        micro_batch_size step context_length compute_attention_mask neighbors_tokens).2
      = [tensorShape1 ((RetroModelTextGenerationStrategy.prepare_batch_at_step
            ⟨position_ids, attention_mask, nb_mask, nb_pos, cfg⟩ tokens maxlen
            micro_batch_size step context_length compute_attention_mask
            neighbors_tokens).1.getD 0 Tensor.null),
          micro_batch_size, cfg.hidden_size] :=
  ⟨rfl, rfl, rfl, rfl, rfl, rfl, rfl, rfl⟩

theorem getD_map_of_lt {α β : Type} (l : List α) (g : α → β) (i : Nat)
    (dA : α) (dB : β) (hi : i < l.length) :
    (l.map g).getD i dB = g (l.getD i dA) := by
  rw [List.getD_eq_getElem?_getD, List.getElem?_map, List.getElem?_eq_getElem hi,
    List.getD_eq_getElem?_getD, List.getElem?_eq_getElem hi]
  rfl

theorem getD_take_map_append_drop (row : List Int) (cl : Nat) (g : Int → Int)
    (j : Nat) (hj : j < row.length) :
    ((row.take cl).map g ++ row.drop cl).getD j 0
      = if j < cl then g (row.getD j 0) else row.getD j 0 := by
  rw [List.getD_eq_getElem?_getD, List.getElem?_append]
  rw [List.length_map, List.length_take]
  by_cases hcl : j < cl
  · rw [if_pos (by omega), if_pos hcl, List.getElem?_map, List.getElem?_take]
    rw [if_pos hcl, List.getElem?_eq_getElem hj, List.getD_eq_getElem?_getD,
      List.getElem?_eq_getElem hj]
    rfl
  · rw [if_neg (by omega), if_neg hcl, List.getElem?_drop]
    have he : cl + (j - min cl row.length) = j := by omega
    rw [he, List.getD_eq_getElem?_getD]

/-- C9: when `pseudo_token_ids_start` is configured, the prompt-learning
`post_process` remaps every entry of `new_tokens`, and every entry of the
first `context_length` columns of `tokens`, that is at or above the
threshold to `unk_id`, leaves entries strictly below the threshold
unchanged, leaves columns at or beyond `context_length` unchanged, and
the post-processing hook the other variants inherit is a no-op. -/
theorem prompt_learning_post_process_spec (model : PromptLearningModelRef)
    (tokens : Grid) (new_tokens : List Int) (context_length : Nat) (p : Int)
    (hp : model.pseudo_token_ids_start = some p) :
    (∀ i, i < new_tokens.length →
      (PromptLearningModelTextGenerationStrategy.post_process model tokens new_tokens
          context_length).2.getD i 0
        = if p ≤ new_tokens.getD i 0 then model.unk_id else new_tokens.getD i 0) ∧
    (∀ i j, j < (tokens.getD i []).length →
      ((PromptLearningModelTextGenerationStrategy.post_process model tokens new_tokens
          context_length).1.getD i []).getD j 0
        = if j < context_length then
            (if p ≤ (tokens.getD i []).getD j 0 then model.unk_id
              else (tokens.getD i []).getD j 0)
          else (tokens.getD i []).getD j 0) ∧
    TextGenerationStrategy.post_process tokens new_tokens context_length
      = (tokens, new_tokens) := by
  unfold PromptLearningModelTextGenerationStrategy.post_process
  rw [hp]
  refine ⟨?_, ?_, rfl⟩
  · intro i hi
    exact getD_map_of_lt new_tokens _ i 0 0 hi
  · intro i j hj
    by_cases hi : i < tokens.length
    · rw [getD_map_of_lt tokens _ i [] [] hi]
      exact getD_take_map_append_drop (tokens.getD i []) context_length _ j hj
    · exfalso
      rw [List.getD_eq_getElem?_getD, List.getElem?_eq_none (by omega)] at hj
      simp at hj

/-- Witness for `prompt_learning_post_process_spec` with threshold 50000:
generated token 50005 → `unk_id = 99`, generated token 42 unchanged;
context column 0 (value 50001) remapped, column 2 (value 50002, beyond
`context_length = 2`) unchanged; the inherited hook is the identity. -/
theorem prompt_learning_post_process_spec_witness :
    (PromptLearningModelTextGenerationStrategy.post_process ⟨some 50000, 99⟩
        [[50001, 7, 50002]] [50005, 42] 2).2.getD 0 0 = 99 ∧
    (PromptLearningModelTextGenerationStrategy.post_process ⟨some 50000, 99⟩
        [[50001, 7, 50002]] [50005, 42] 2).2.getD 1 0 = 42 ∧
    ((PromptLearningModelTextGenerationStrategy.post_process ⟨some 50000, 99⟩
        [[50001, 7, 50002]] [50005, 42] 2).1.getD 0 []).getD 0 0 = 99 ∧
    ((PromptLearningModelTextGenerationStrategy.post_process ⟨some 50000, 99⟩
        [[50001, 7, 50002]] [50005, 42] 2).1.getD 0 []).getD 2 0 = 50002 ∧
    TextGenerationStrategy.post_process [[50001, 7, 50002]] [50005, 42] 2
      = ([[50001, 7, 50002]], [50005, 42]) := by
  have h := prompt_learning_post_process_spec ⟨some 50000, 99⟩ [[50001, 7, 50002]]
    [50005, 42] 2 50000 rfl
  exact ⟨(h.1 0 (by decide)).trans (by decide), (h.1 1 (by decide)).trans (by decide),
    (h.2.1 0 0 (by decide)).trans (by decide), (h.2.1 0 2 (by decide)).trans (by decide),
    h.2.2⟩

theorem self_mem_insertSet (l : List Int) (x : Int) : x ∈ insertSet l x := by
  unfold insertSet
  split
  · next h => simpa using h
  · exact List.mem_append_right _ (List.mem_singleton_self x)

theorem contains_insertSet_self (l : List String) (x : String) :
    (insertSet l x).contains x = true := by
  unfold insertSet
  split
  · next h => exact h
  · simp

/-- C4: for an end string with no cache entry, the loop body invokes the
discovery heuristic (tokenizing `"<extra_id_1>"` and
`"<extra_id_1>" ++ end_string`, recorded in `probed`); exactly when the
second token list is one longer than the first with the first as proper
prefix, the trailing token is memoized as the string's single-token
encoding and added to `end_tokens` (no warning, no string-check entry);
otherwise the string is warned about and routed to string-suffix
checking, with the token map unchanged. -/
theorem discovery_heuristic_spec (tok : Tokenizer) (st : ResolveLoopState)
    (end_string : String) (h : ¬ resolvedInCache st.cache end_string) :
    (resolveEndString tok st end_string).probed = st.probed ++ [end_string] ∧
    ((tok.text_to_ids ("<extra_id_1>" ++ end_string)).length
          = (tok.text_to_ids "<extra_id_1>").length + 1 ∧
        (tok.text_to_ids ("<extra_id_1>" ++ end_string)).dropLast
          = tok.text_to_ids "<extra_id_1>" →
      (resolveEndString tok st end_string).cache.end_string_to_token.lookup end_string
          = some ((tok.text_to_ids ("<extra_id_1>" ++ end_string)).getLastD 0) ∧
      (tok.text_to_ids ("<extra_id_1>" ++ end_string)).getLastD 0
          ∈ (resolveEndString tok st end_string).end_tokens ∧
      (resolveEndString tok st end_string).to_check = st.to_check ∧
      (resolveEndString tok st end_string).warned = st.warned ∧
      (resolveEndString tok st end_string).cache.end_strings_to_check
          = st.cache.end_strings_to_check) ∧
    (¬ ((tok.text_to_ids ("<extra_id_1>" ++ end_string)).length
          = (tok.text_to_ids "<extra_id_1>").length + 1 ∧
        (tok.text_to_ids ("<extra_id_1>" ++ end_string)).dropLast
          = tok.text_to_ids "<extra_id_1>") →
      (resolveEndString tok st end_string).cache.end_strings_to_check.contains end_string
          = true ∧
      (resolveEndString tok st end_string).to_check = st.to_check ++ [end_string] ∧
      (resolveEndString tok st end_string).warned = st.warned ++ [end_string] ∧
      (resolveEndString tok st end_string).cache.end_string_to_token
          = st.cache.end_string_to_token) := by
  unfold resolvedInCache at h
  push_neg at h
  obtain ⟨h1, h2⟩ := h
  have hl : st.cache.end_string_to_token.lookup end_string = none :=
    Option.not_isSome_iff_eq_none.mp h1
  have hc : st.cache.end_strings_to_check.contains end_string = false := by
    simpa using h2
  unfold resolveEndString
  rw [hl]
  simp only [hc, Bool.false_eq_true, if_false]
  by_cases hcond : (tok.text_to_ids ("<extra_id_1>" ++ end_string)).length
      = (tok.text_to_ids "<extra_id_1>").length + 1 ∧
    (tok.text_to_ids ("<extra_id_1>" ++ end_string)).dropLast
      = tok.text_to_ids "<extra_id_1>"
  · rw [if_pos hcond]
    refine ⟨rfl, fun _ => ⟨?_, ?_, rfl, rfl, rfl⟩, fun hno => absurd hcond hno⟩
    · exact lookup_append_of_lookup_none hl _
    · exact self_mem_insertSet _ _
  · rw [if_neg hcond]
    refine ⟨rfl, fun hyes => absurd hyes hcond, fun _ => ⟨?_, rfl, rfl, rfl⟩⟩
    exact contains_insertSet_self _ _

/-- Witness for `discovery_heuristic_spec`: starting from a fresh cache,
`"Done"` (tokenized `[7] / [7, 42]`) resolves to single token 42 and is
memoized; `"STOP"` (tokenized `[7] / [7, 9, 9]`) is warned about and
routed to string checking. -/
theorem discovery_heuristic_spec_witness :
    (resolveEndString sampleTokenizer ⟨[0], [], freshCache sampleTokenizer 0, [], []⟩
        "Done").cache.end_string_to_token.lookup "Done" = some 42 ∧
    (42 : Int) ∈ (resolveEndString sampleTokenizer
        ⟨[0], [], freshCache sampleTokenizer 0, [], []⟩ "Done").end_tokens ∧
    (resolveEndString sampleTokenizer ⟨[0], [], freshCache sampleTokenizer 0, [], []⟩
        "Done").probed = [] ++ ["Done"] ∧
    (resolveEndString sampleTokenizer ⟨[0], [], freshCache sampleTokenizer 0, [], []⟩
        "STOP").cache.end_strings_to_check.contains "STOP" = true ∧
    (resolveEndString sampleTokenizer ⟨[0], [], freshCache sampleTokenizer 0, [], []⟩
        "STOP").to_check = [] ++ ["STOP"] ∧
    (resolveEndString sampleTokenizer ⟨[0], [], freshCache sampleTokenizer 0, [], []⟩
        "STOP").warned = [] ++ ["STOP"] := by
  have hD := discovery_heuristic_spec sampleTokenizer
    ⟨[0], [], freshCache sampleTokenizer 0, [], []⟩ "Done" (by decide)
  have hS := discovery_heuristic_spec sampleTokenizer
    ⟨[0], [], freshCache sampleTokenizer 0, [], []⟩ "STOP" (by decide)
  exact ⟨(hD.2.1 (by decide)).1, (hD.2.1 (by decide)).2.1, hD.1,
    (hS.2.2 (by decide)).1, (hS.2.2 (by decide)).2.1, (hS.2.2 (by decide)).2.2.1⟩

theorem map_snd_eq_zipWith (tokens : Grid) (prev : List Int) (f : Int → Bool)
    (hlen : tokens.length = prev.length) :
    prev.map f = List.zipWith (fun _ p => f p) tokens prev := by
  induction tokens generalizing prev with
  | nil =>
    cases prev with
    | nil => rfl
    | cons p ps => simp at hlen
  | cons t ts ih =>
    cases prev with
    | nil => simp at hlen
    | cons p ps =>
      simp only [List.map_cons, List.zipWith_cons_cons]
      rw [ih ps (by simpa using hlen)]

theorem zip_map_or_eq_zipWith (tokens : Grid) (prev : List Int) (f : Int → Bool)
    (g : List Int → Bool) (hlen : tokens.length = prev.length) :
    (tokens.zip (prev.map f)).map (fun te => te.2 || g te.1)
      = List.zipWith (fun ts p => f p || g ts) tokens prev := by
  induction tokens generalizing prev with
  | nil => rfl
  | cons t ts ih =>
    cases prev with
    | nil => simp at hlen
    | cons p ps =>
      simp only [List.map_cons, List.zip_cons_cons, List.zipWith_cons_cons]
      rw [ih ps (by simpa using hlen)]

/-- C3: on the general path, the stop vector is, for each sequence, "the
previous token is one of the resolved end tokens, or the decoded text of
the sequence's tokens ends with one of the strings requiring a string
comparison"; and the resolved end-token set always contains `eod_id`. -/
theorem end_of_generation_condition_general_path (tok : Tokenizer)
    (cache0 : Option EndOfGenerationCache) (tokens : Grid) (prev : List Int)
    (eod_id : Int) (end_strings : List String)
    (hlen : tokens.length = prev.length)
    (hfast : ¬ ((end_strings.length = 1 ∧ end_strings.headD "" = END_OF_SEQ)
      ∨ end_strings = [])) :
    (end_of_generation_condition tok cache0 tokens prev eod_id end_strings).is_end
      = List.zipWith (fun token_seq p =>
          (getEndOfGenerationTokensAndStrings tok cache0 eod_id
              end_strings).end_tokens.contains p
            || (getEndOfGenerationTokensAndStrings tok cache0 eod_id
                end_strings).end_strings_to_check.any
                  (fun s => pyEndsWith (tok.ids_to_text token_seq) s))
        tokens prev ∧
    eod_id ∈ (getEndOfGenerationTokensAndStrings tok cache0 eod_id
        end_strings).end_tokens := by
  constructor
  · unfold end_of_generation_condition
    rw [if_neg hfast]
    dsimp only
    by_cases hchk : (getEndOfGenerationTokensAndStrings tok cache0 eod_id
        end_strings).end_strings_to_check.isEmpty = true
    · rw [if_pos hchk]
      have hnil : (getEndOfGenerationTokensAndStrings tok cache0 eod_id
          end_strings).end_strings_to_check = [] := List.isEmpty_iff.mp hchk
      rw [hnil]
      simp only [List.any_nil, Bool.or_false]
      exact map_snd_eq_zipWith tokens prev
        (fun p => (getEndOfGenerationTokensAndStrings tok cache0 eod_id
          end_strings).end_tokens.contains p) hlen
    · rw [if_neg hchk]
      exact zip_map_or_eq_zipWith tokens prev
        (fun p => (getEndOfGenerationTokensAndStrings tok cache0 eod_id
          end_strings).end_tokens.contains p)
        (fun ts => (getEndOfGenerationTokensAndStrings tok cache0 eod_id
          end_strings).end_strings_to_check.any
            (fun s => pyEndsWith (tok.ids_to_text ts) s)) hlen
  · exact end_tokens_mem_foldl tok end_strings _ (List.mem_singleton_self eod_id)

/-- Witness for `end_of_generation_condition_general_path`: with end
strings `["Done", "STOP"]`, sequence 0 stops because its previous token is
the discovered token 42 of `"Done"`, sequence 1 stops because its decoded
text `"xSTOP"` ends with `"STOP"`; `eod_id = 0` is among the end tokens. -/
theorem end_of_generation_condition_general_path_witness :
    (end_of_generation_condition sampleTokenizer none [[5], [3]] [42, 1] 0
        ["Done", "STOP"]).is_end = [true, true] ∧
    (0 : Int) ∈ (getEndOfGenerationTokensAndStrings sampleTokenizer none 0
        ["Done", "STOP"]).end_tokens := by
  have h := end_of_generation_condition_general_path sampleTokenizer none [[5], [3]]
    [42, 1] 0 ["Done", "STOP"] rfl (by decide)
  exact ⟨h.1.trans (by decide), h.2⟩

theorem resolved_after_resolveEndString (tok : Tokenizer) (st : ResolveLoopState)
    (s : String) : resolvedInCache (resolveEndString tok st s).cache s := by
  unfold resolveEndString
  rcases hl : st.cache.end_string_to_token.lookup s with _ | v
  · simp only
    split
    · next hcont => exact Or.inr hcont
    · split
      · exact Or.inl (by rw [lookup_append_of_lookup_none hl]; rfl)
      · exact Or.inr (contains_insertSet_self _ _)
  · exact Or.inl (by rw [hl]; rfl)

theorem resolved_foldl_mono (tok : Tokenizer) (es : List String)
    (st : ResolveLoopState) (s : String) (h : resolvedInCache st.cache s) :
    resolvedInCache ((es.foldl (resolveEndString tok) st)).cache s := by
  induction es generalizing st with
  | nil => exact h
  | cons e tl ih => exact ih _ (resolvedInCache_resolveEndString tok st e s h)

theorem resolved_foldl_of_mem (tok : Tokenizer) (es : List String)
    (st : ResolveLoopState) (s : String) (h : s ∈ es) :
    resolvedInCache ((es.foldl (resolveEndString tok) st)).cache s := by
  induction es generalizing st with
  | nil => cases h
  | cons e tl ih =>
    rcases List.mem_cons.mp h with he | ht
    · subst he
      exact resolved_foldl_mono tok tl _ s (resolved_after_resolveEndString tok st s)
    · exact ih _ ht

theorem foldl_cache_ident (tok : Tokenizer) (es : List String)
    (st : ResolveLoopState) :
    ((es.foldl (resolveEndString tok) st)).cache.tokenizer_ident
      = st.cache.tokenizer_ident := by
  induction es generalizing st with
  | nil => rfl
  | cons e tl ih => rw [List.foldl_cons, ih _, cache_ident_resolveEndString]

/-- C5: the end-of-generation cache invariant.  (1) With the same
tokenizer recorded in the cache, a string already resolved (to a single
token or as requiring string comparison) is never probed again by the
discovery heuristic.  (2) Every end string handed to a resolution ends up
resolved in the returned cache, and (3) the returned cache always records
the active tokenizer — so a second call on the returned cache never
re-probes.  (4)/(5) With no cache, or a cache recording a different
tokenizer identity, the cache is discarded and resolution proceeds from
the freshly rebuilt cache. -/
theorem end_of_generation_cache_invariant :
    (∀ (tok : Tokenizer) (c : EndOfGenerationCache) (eod_id : Int)
        (end_strings : List String) (s : String),
      c.tokenizer_ident = tok.ident → resolvedInCache c s →
      s ∉ (getEndOfGenerationTokensAndStrings tok (some c) eod_id end_strings).probed) ∧
    (∀ (tok : Tokenizer) (cache0 : Option EndOfGenerationCache) (eod_id : Int)
        (end_strings : List String) (s : String),
      s ∈ end_strings →
      resolvedInCache (getEndOfGenerationTokensAndStrings tok cache0 eod_id
          end_strings).cache s) ∧
    (∀ (tok : Tokenizer) (cache0 : Option EndOfGenerationCache) (eod_id : Int)
        (end_strings : List String),
      (getEndOfGenerationTokensAndStrings tok cache0 eod_id
          end_strings).cache.tokenizer_ident = tok.ident) ∧
    (∀ (tok : Tokenizer) (eod_id : Int) (end_strings : List String),
      getEndOfGenerationTokensAndStrings tok none eod_id end_strings
        = getEndOfGenerationTokensAndStrings tok (some (freshCache tok eod_id))
            eod_id end_strings) ∧
    (∀ (tok : Tokenizer) (c : EndOfGenerationCache) (eod_id : Int)
        (end_strings : List String), c.tokenizer_ident ≠ tok.ident →
      getEndOfGenerationTokensAndStrings tok (some c) eod_id end_strings
        = getEndOfGenerationTokensAndStrings tok (some (freshCache tok eod_id))
            eod_id end_strings) := by
  refine ⟨?_, ?_, ?_, ?_, ?_⟩
  · intro tok c eod_id end_strings s hid hres
    unfold getEndOfGenerationTokensAndStrings
    dsimp only
    rw [if_neg (by simp [hid])]
    exact (resolved_and_unprobed_foldl tok end_strings _ s hres (List.not_mem_nil s)).2
  · intro tok cache0 eod_id end_strings s hmem
    unfold getEndOfGenerationTokensAndStrings
    dsimp only
    exact resolved_foldl_of_mem tok end_strings _ s hmem
  · intro tok cache0 eod_id end_strings
    unfold getEndOfGenerationTokensAndStrings
    dsimp only
    rw [foldl_cache_ident]
    rcases cache0 with _ | c
    · rfl
    · dsimp only
      split
      · rfl
      · next hne => exact (not_not.mp hne).symm ▸ rfl
  · intro tok eod_id end_strings
    unfold getEndOfGenerationTokensAndStrings
    dsimp only
    rw [ite_self]
  · intro tok c eod_id end_strings hne
    unfold getEndOfGenerationTokensAndStrings
    dsimp only
    rw [if_pos hne, ite_self]

/-- Witness for `end_of_generation_cache_invariant`: a cache that already
resolved `"Done"` to token 42 is not probed again for it; after resolving
`["STOP"]` from scratch, `"STOP"` is resolved in the returned cache, which
records the active tokenizer; resolving with no cache, or with a cache
recording tokenizer identity 5 ≠ 0, is resolving from the rebuilt cache. -/
theorem end_of_generation_cache_invariant_witness :
    "Done" ∉ (getEndOfGenerationTokensAndStrings sampleTokenizer
        (some ⟨0, [(END_OF_SEQ, 0), ("Done", 42)], []⟩) 0 ["Done"]).probed ∧
    resolvedInCache (getEndOfGenerationTokensAndStrings sampleTokenizer none 0
        ["STOP"]).cache "STOP" ∧
    (getEndOfGenerationTokensAndStrings sampleTokenizer none 0
        ["STOP"]).cache.tokenizer_ident = 0 ∧
    getEndOfGenerationTokensAndStrings sampleTokenizer none 0 ["Done"]
      = getEndOfGenerationTokensAndStrings sampleTokenizer
          (some (freshCache sampleTokenizer 0)) 0 ["Done"] ∧
    getEndOfGenerationTokensAndStrings sampleTokenizer (some ⟨5, [], []⟩) 0 ["Done"]
      = getEndOfGenerationTokensAndStrings sampleTokenizer
          (some (freshCache sampleTokenizer 0)) 0 ["Done"] :=
  ⟨end_of_generation_cache_invariant.1 sampleTokenizer
      ⟨0, [(END_OF_SEQ, 0), ("Done", 42)], []⟩ 0 ["Done"] "Done" rfl (by decide),
    end_of_generation_cache_invariant.2.1 sampleTokenizer none 0 ["STOP"] "STOP"
      (by decide),
    end_of_generation_cache_invariant.2.2.1 sampleTokenizer none 0 ["STOP"],
    end_of_generation_cache_invariant.2.2.2.1 sampleTokenizer 0 ["Done"],
    end_of_generation_cache_invariant.2.2.2.2 sampleTokenizer ⟨5, [], []⟩ 0 ["Done"]
      (by decide)⟩
